import Mathlib

/-!
Shallow embedding of the Singular-Weather-Analytics data pipeline
(`weather_scraper.py`, `visualizations.py`, `app.py`).

Modelling conventions:
* Python/pandas float values are modelled as exact rationals (`ℚ`);
  `numpy.round(x, 1)` is modelled as round-half-to-even of `x * 10`
  divided by 10 (numpy's documented rounding rule, on the exact value).
* An absent field (Python `None`, pandas `NaN`) is `Option.none`.
  pandas stores a numeric column that contains at least one number as
  float64 with `NaN` for the absent entries; arithmetic on `NaN`
  propagates `NaN`, `Series.round` keeps `NaN`, `sort_values` places
  `NaN` rows last in their original order (`na_position='last'`), and
  `Series.mean`/`idxmax`/`idxmin` skip `NaN`.  A column that is entirely
  absent makes `idxmax`/`idxmin` (and `df.loc[nan, ...]`) raise, which is
  modelled as `Option.none` at the call-site result.
* `DataFrame.sort_values('temperature_c', ascending=False)` (pandas
  `nargsort`) reverses the non-NaN rows, argsorts them with the default
  `quicksort`, and reverses the result.  The embedding writes this as
  `List.insertionSort` with the relation `temperature of b ≤
  temperature of a`: that coincides with the program exactly on frames
  below numpy's 16-element insertion-sort cutoff (every frame this
  application produces — the registry has 10 cities), while for larger
  frames numpy guarantees no tie order.  Accordingly, no theorem below
  relies on the tie order of this embedded sort: only its sortedness,
  membership, permutation and NaN-rows-last facts are used, and those
  hold for the real sort at every size.
* Exceptions are modelled with `Option`: `none` is a raised exception.
-/

attribute [local semireducible] Rat.add Rat.mul Rat.sub Rat.inv Rat.ofScientific

namespace Weather

/-- numpy round-half-to-even of a rational to the nearest integer,
computed on the numerator/denominator so that concrete values reduce:
`f` is the floor of `q` and `r2` compares twice the fractional part
of `q` with one. -/
def roundHalfToEven (q : ℚ) : ℤ :=
  let f := Int.fdiv q.num q.den
  let r2 := 2 * (q.num - f * q.den)
  if r2 < q.den then f
  else if (q.den : ℤ) < r2 then f + 1
  else if f % 2 = 0 then f else f + 1

/-- `Series.round(1)` / `round(x, 1)`: round to one decimal place. -/
def round1 (q : ℚ) : ℚ := (roundHalfToEven (q * 10) : ℚ) / 10

/-- One raw observation as built by `WeatherScraper.fetch_weather_data`
(lines 65-73 of `weather_scraper.py`). -/
structure RawObservation where
  city : String
  latitude : ℚ
  longitude : ℚ
  temperature_c : Option ℚ
  humidity : Option ℚ
  wind_speed_ms : Option ℚ
  timestamp : String
deriving DecidableEq, Repr

/-- One row of the frame produced by `process_weather_data`, with the
columns in the order of lines 149-152 of `weather_scraper.py`. -/
structure ProcessedObservation where
  city : String
  temperature_c : Option ℚ
  temperature_f : Option ℚ
  humidity : Option ℚ
  wind_speed_ms : Option ℚ
  wind_speed_mph : Option ℚ
  latitude : ℚ
  longitude : ℚ
  timestamp : String
deriving DecidableEq, Repr

/-- Lines 136-146 of `weather_scraper.py`: compute `temperature_f` and
`wind_speed_mph` from the unrounded inputs, then round the four numeric
columns to one decimal.  `NaN` (absent) propagates through the
arithmetic and the rounding. -/
def computeDerived (r : RawObservation) : ProcessedObservation where
  city := r.city
  temperature_c := r.temperature_c.map round1
  temperature_f := r.temperature_c.map (fun c => round1 (c * 9 / 5 + 32))
  humidity := r.humidity
  wind_speed_ms := r.wind_speed_ms.map round1
  wind_speed_mph := r.wind_speed_ms.map (fun w => round1 (w * (2237 / 1000)))
  latitude := r.latitude
  longitude := r.longitude
  timestamp := r.timestamp

/-- Sort key of line 157: the (already rounded) `temperature_c` column.
Only applied to rows whose temperature is present. -/
def tempKey (r : ProcessedObservation) : ℚ := r.temperature_c.getD 0

/-- Relation of the descending temperature sort: `a` may come before `b`. -/
def tempDescRel (a b : ProcessedObservation) : Prop := tempKey b ≤ tempKey a

instance : DecidableRel tempDescRel := fun a b =>
  inferInstanceAs (Decidable (tempKey b ≤ tempKey a))

instance : IsTotal ProcessedObservation tempDescRel :=
  ⟨fun a b => le_total (tempKey b) (tempKey a)⟩

instance : IsTrans ProcessedObservation tempDescRel :=
  ⟨fun _ _ _ h1 h2 => le_trans h2 h1⟩

/-- Line 157, `df.sort_values('temperature_c', ascending=False)`:
pandas `nargsort` keeps the `NaN` rows last in input order and sorts the
remaining rows descending by temperature.  Written as
`List.insertionSort` with `tempDescRel`; this is exact for frames below
numpy's 16-element insertion-sort cutoff, and for larger frames only its
sortedness, membership, permutation and NaN-rows-last facts — the ones
the theorems below use — are guaranteed by the program (the default
`quicksort` fixes no tie order there). -/
def sortByTempDesc (rows : List ProcessedObservation) : List ProcessedObservation :=
  (rows.filter (fun r => (r.temperature_c).isSome)).insertionSort tempDescRel
    ++ rows.filter (fun r => !(r.temperature_c).isSome)

/-- Embeds `WeatherScraper.process_weather_data` (lines 121-160): empty frame
returned unchanged; otherwise derive/round the numeric columns, reorder
the columns and sort by temperature descending. -/
def processWeatherData (df : List RawObservation) : List ProcessedObservation :=
  if df.isEmpty then [] else sortByTempDesc (df.map computeDerived)

/-- Maximum of a list of rationals (`none` on the empty list). -/
def listMax : List ℚ → Option ℚ
  | [] => none
  | x :: xs =>
    match listMax xs with
    | none => some x
    | some m => some (max x m)

/-- Minimum of a list of rationals (`none` on the empty list). -/
def listMin : List ℚ → Option ℚ
  | [] => none
  | x :: xs =>
    match listMin xs with
    | none => some x
    | some m => some (min x m)

/-- Embeds the `df.loc[df[col].idxmax(), 'city']`-style lookup on one column:
pandas `Series.idxmax` skips `NaN` and returns the index of the first
occurrence of the maximum; over an entirely absent column it raises
(`idxmax` of no values / `df.loc[nan]`), modelled as `none`.  The row at
the returned index is the first row attaining the maximum, because
`process_weather_data` resets the index to positional order. -/
def idxmaxRow (key : ProcessedObservation → Option ℚ)
    (df : List ProcessedObservation) : Option ProcessedObservation :=
  match listMax (df.filterMap key) with
  | none => none
  | some m => df.find? (fun r => decide (key r = some m))

/-- The `Series.idxmin` counterpart of `idxmaxRow`. -/
def idxminRow (key : ProcessedObservation → Option ℚ)
    (df : List ProcessedObservation) : Option ProcessedObservation :=
  match listMin (df.filterMap key) with
  | none => none
  | some m => df.find? (fun r => decide (key r = some m))

/-- Embeds `Series.mean()`: arithmetic mean over the present (non-`NaN`) values
of a column; `NaN` (here `none`) when no value is present. -/
def meanPresent (key : ProcessedObservation → Option ℚ)
    (df : List ProcessedObservation) : Option ℚ :=
  let vals := df.filterMap key
  if vals.isEmpty then none
  else some ((vals.foldl (fun a b => a + b) 0) / (vals.length : ℚ))

/-- The `temperature_stats` block of `get_weather_insights`. -/
structure TemperatureStats where
  hottest_city : String
  coldest_city : String
  avg_temperature_c : ℚ
  avg_temperature_f : ℚ
deriving DecidableEq, Repr

/-- The `humidity_stats` block of `get_weather_insights`. -/
structure HumidityStats where
  most_humid_city : String
  least_humid_city : String
  avg_humidity : ℚ
deriving DecidableEq, Repr

/-- The `wind_stats` block of `get_weather_insights`. -/
structure WindStats where
  windiest_city : String
  calmest_city : String
  avg_wind_speed_mph : ℚ
deriving DecidableEq, Repr

/-- The insights dictionary built at lines 176-195 of
`weather_scraper.py`. -/
structure Insights where
  total_cities : ℕ
  data_collection_time : String
  temperature_stats : TemperatureStats
  humidity_stats : HumidityStats
  wind_stats : WindStats
deriving DecidableEq, Repr

/-- Result shape of `get_weather_insights`: the empty dict on an empty
frame, the full dictionary otherwise. -/
inductive InsightsResult where
  | empty
  | full (i : Insights)
deriving DecidableEq, Repr

/-- Embeds `WeatherScraper.get_weather_insights` (lines 162-197).  `now` is the
string `datetime.now().isoformat()` produces.  The outer `Option` is the
exception channel: `none` means the call raised (which happens exactly
when one of the six `idxmax`/`idxmin` lookups is over an entirely absent
column).  A `meanPresent` of an entirely absent column can only be hit
after the corresponding `idxmaxRow` already failed, so binding it in the
same `Option` chain is faithful. -/
def getWeatherInsights (now : String) (df : List ProcessedObservation) :
    Option InsightsResult :=
  if df.isEmpty then some .empty
  else do
    let hot ← idxmaxRow (fun r => r.temperature_c) df
    let cold ← idxminRow (fun r => r.temperature_c) df
    let mtc ← meanPresent (fun r => r.temperature_c) df
    let mtf ← meanPresent (fun r => r.temperature_f) df
    let mh ← idxmaxRow (fun r => r.humidity) df
    let lh ← idxminRow (fun r => r.humidity) df
    let mhum ← meanPresent (fun r => r.humidity) df
    let windy ← idxmaxRow (fun r => r.wind_speed_mph) df
    let calm ← idxminRow (fun r => r.wind_speed_mph) df
    let mw ← meanPresent (fun r => r.wind_speed_mph) df
    pure (.full
      { total_cities := df.length
        data_collection_time := now
        temperature_stats :=
          ⟨hot.city, cold.city, round1 mtc, round1 mtf⟩
        humidity_stats := ⟨mh.city, lh.city, round1 mhum⟩
        wind_stats := ⟨windy.city, calm.city, round1 mw⟩ })

/-- Default value of `config.CHARTS_DIR`. -/
def chartsDir : String := "static/charts"

/-- Embeds `WeatherVisualizer.generate_all_visualizations`
(`visualizations.py` lines 316-342): the three chart calls run in
sequence inside one `try`; the first failure aborts the remaining calls
and the partial `chart_paths` dict is returned (the function itself
never raises).  `c1`, `c2`, `c3` say whether each external render call
succeeds; the chart contents are irrelevant to the control flow, so
only success flags and the produced name-to-path entries are modelled. -/
def generateAllVisualizations (c1 c2 c3 : Bool) : List (String × String) :=
  if !c1 then []
  else if !c2 then
    [("temperature_comparison", chartsDir ++ "/temperature_comparison.png")]
  else if !c3 then
    [("temperature_comparison", chartsDir ++ "/temperature_comparison.png"),
     ("humidity_wind_analysis", chartsDir ++ "/humidity_wind_analysis.png")]
  else
    [("temperature_comparison", chartsDir ++ "/temperature_comparison.png"),
     ("humidity_wind_analysis", chartsDir ++ "/humidity_wind_analysis.png"),
     ("comprehensive_dashboard", chartsDir ++ "/weather_dashboard.png")]

/-- The four module-level cache globals of `app.py` (lines 44-47). -/
structure CacheState where
  cached_weather_data : Option (List ProcessedObservation)
  cached_insights : Option InsightsResult
  cached_charts : Option (List (String × String))
  last_update_time : Option String
deriving DecidableEq, Repr

/-- Process start: all four cache globals are `None`. -/
def initialCache : CacheState := ⟨none, none, none, none⟩

/-- Embeds `app.update_weather_data` (lines 53-88) as a state transition on the
cache globals.  `fetched` is the list of successful per-city fetches
collected by `scrape_all_cities` (failed cities are already dropped
there); `exportOk` says whether `DataFrame.to_csv` succeeds; `now` is
the wall-clock time of this refresh.  The returned flag is `true` iff
the run reaches the final success log line: the empty-frame early
return and every caught exception (insights raising, `to_csv` raising)
leave the cache untouched, log an error and yield `false`.  The cache
assignment is a single step: the function body contains no `await`, and
asyncio switches tasks only at `await` points. -/
def updateWeatherData (s : CacheState) (fetched : List RawObservation)
    (c1 c2 c3 exportOk : Bool) (now : String) : CacheState × Bool :=
  let weather_df := processWeatherData fetched
  if weather_df.isEmpty then (s, false)
  else
    match getWeatherInsights now weather_df with
    | none => (s, false)
    | some insights =>
      let chart_paths := generateAllVisualizations c1 c2 c3
      if exportOk then
        ({ cached_weather_data := some weather_df
           cached_insights := some insights
           cached_charts := some chart_paths
           last_update_time := some now }, true)
      else (s, false)

/-- What a concurrent reader (any `app.py` request handler) sees when it
reads the cached observations together with the cached insights. -/
structure ReadView where
  observations : Option (List ProcessedObservation)
  insights : Option InsightsResult
deriving DecidableEq, Repr

/-- One atomic turn of the asyncio event loop: either a refresh task
runs `update_weather_data` to completion (its body has no `await`, so
no reader can interleave with it), or a reader handler reads the cache
globals. -/
inductive Ev where
  | refresh (fetched : List RawObservation) (c1 c2 c3 exportOk : Bool) (now : String)
  | readData
deriving DecidableEq, Repr

/-- Execute one event-loop turn. -/
def stepEv (s : CacheState) : Ev → CacheState × Option ReadView
  | .refresh f c1 c2 c3 e now => ((updateWeatherData s f c1 c2 c3 e now).1, none)
  | .readData => (s, some ⟨s.cached_weather_data, s.cached_insights⟩)

/-- Run a sequence of event-loop turns, collecting everything the
readers observed. -/
def runEvents (s : CacheState) : List Ev → List ReadView
  | [] => []
  | ev :: rest =>
    let sv := stepEv s ev
    (match sv.2 with
     | none => []
     | some view => [view]) ++ runEvents sv.1 rest

/-- The cached insights are the ones derived from the cached
observations (by some run of `get_weather_insights`), and insights are
never present without observations. -/
def stateConsistent (s : CacheState) : Prop :=
  (s.cached_weather_data = none → s.cached_insights = none) ∧
  ∀ df, s.cached_weather_data = some df →
    ∃ now res, s.cached_insights = some res ∧ getWeatherInsights now df = some res

/-- A reader's view pairs observations with the insights derived from
exactly those observations. -/
def viewConsistent (v : ReadView) : Prop :=
  (v.observations = none → v.insights = none) ∧
  ∀ df, v.observations = some df →
    ∃ now res, v.insights = some res ∧ getWeatherInsights now df = some res

/-! Concrete data used by the per-claim witnesses and counterexamples. -/

/-- Two fetched observations, the second lacking `temperature_c` and
`humidity`. -/
def c1df : List RawObservation :=
  [⟨"A", 0, 0, some 20, some 50, some 5, "t"⟩,
   ⟨"B", 0, 0, none, none, some 3, "u"⟩]

/-- One fully populated fetched observation. -/
def c3raw : RawObservation := ⟨"A", 0, 0, some 20, some 50, some 5, "t"⟩

/-- One processed observation used for the C10 witness. -/
def c10df : List ProcessedObservation :=
  [⟨"A", some 10, some 50, some 50, some 2, some (9/2), 0, 0, "x"⟩]

/-- The insights `get_weather_insights` derives from `c10df`. -/
def c10insights : Insights :=
  ⟨1, "t", ⟨"A", "A", 10, 50⟩, ⟨"A", "A", 50⟩, ⟨"A", "A", 9/2⟩⟩

/-- One processed observation whose humidity is absent. -/
def c4df : List ProcessedObservation :=
  [⟨"A", some 10, some 50, none, some 2, some (9/2), 0, 0, "x"⟩]

/-- The spec's aggregator example frame, already normalized. -/
def c4okdf : List ProcessedObservation :=
  [⟨"Hot", some 30, some 86, some 40, some 3, some (67/10), 0, 0, "x"⟩,
   ⟨"Humid", some 20, some 68, some 90, some 2, some (9/2), 0, 0, "x"⟩,
   ⟨"Cold", some 5, some 41, some 60, some 8, some (179/10), 0, 0, "x"⟩]

/-- The insights `get_weather_insights` derives from `c4okdf`. -/
def c4insights : Insights :=
  ⟨3, "t", ⟨"Hot", "Cold", 183/10, 65⟩, ⟨"Humid", "Hot", 633/10⟩,
   ⟨"Cold", "Humid", 97/10⟩⟩

/-- One fully populated fetched observation for the C5 run. -/
def c5raw : List RawObservation := [⟨"A", 0, 0, some 20, some 50, some 5, "t"⟩]

/-- The insights derived from the processed `c5raw`. -/
def c5res : InsightsResult :=
  .full ⟨1, "t", ⟨"A", "A", 20, 68⟩, ⟨"A", "A", 50⟩, ⟨"A", "A", 56/5⟩⟩

/-- A normalized frame, sorted descending, whose minimum temperature is
attained by the second and third rows. -/
def c8df : List ProcessedObservation :=
  [⟨"A", some 10, some 50, some 40, some 1, some 1, 0, 0, "x"⟩,
   ⟨"B", some 5, some 41, some 60, some 2, some 2, 0, 0, "x"⟩,
   ⟨"C", some 5, some 41, some 90, some 3, some 3, 0, 0, "x"⟩]

/-- The insights derived from `c8df`. -/
def c8insights : Insights :=
  ⟨3, "t", ⟨"A", "B", 67/10, 44⟩, ⟨"C", "A", 633/10⟩, ⟨"C", "A", 2⟩⟩

/-- A normalized frame, sorted descending, with a unique minimum
temperature. -/
def c8wdf : List ProcessedObservation :=
  [⟨"A", some 10, some 50, some 40, some 1, some 1, 0, 0, "x"⟩,
   ⟨"B", some 5, some 41, some 60, some 2, some 2, 0, 0, "x"⟩,
   ⟨"C", some 3, some 37, some 90, some 3, some 3, 0, 0, "x"⟩]

/-- The insights derived from `c8wdf`. -/
def c8winsights : Insights :=
  ⟨3, "t", ⟨"A", "C", 6, 427/10⟩, ⟨"C", "A", 633/10⟩, ⟨"C", "A", 2⟩⟩

/-- One fetched observation for the C9 witness trace. -/
def c9raw : List RawObservation := [⟨"A", 0, 0, some 10, some 50, some 2, "ts"⟩]

/-- The insights derived from the processed `c9raw`. -/
def c9res : InsightsResult :=
  .full ⟨1, "t", ⟨"A", "A", 10, 50⟩, ⟨"A", "A", 50⟩, ⟨"A", "A", 9/2⟩⟩

/-- The view a reader obtains right after the refresh of `c9raw`. -/
def c9view : ReadView :=
  ⟨some [⟨"A", some 10, some 50, some 50, some 2, some (9/2), 0, 0, "ts"⟩],
   some c9res⟩

/-- A trace: one successful refresh, then one read. -/
def c9evs : List Ev := [.refresh c9raw true true true true "t", .readData]

/-! Concrete evaluations checking the embedding on small inputs. -/

example :
    processWeatherData
      [⟨"A", 0, 0, some 20, some 50, some 5, "t"⟩] =
      [⟨"A", some 20, some 68, some 50, some 5, some (56/5), 0, 0, "t"⟩] := by
  decide

example :
    (processWeatherData
      [⟨"A", 0, 0, some 5, some 50, some 1, "t"⟩,
       ⟨"B", 0, 0, some 7, none, some 1, "t"⟩,
       ⟨"C", 0, 0, some 5, some 60, some 1, "t"⟩]).map (fun r => r.city) =
      ["B", "A", "C"] := by
  decide

example : getWeatherInsights "t" [] = some .empty := by decide

example :
    getWeatherInsights "t"
      [⟨"Hot", some 30, some 86, some 40, some 3, some (67/10), 0, 0, "x"⟩,
       ⟨"Humid", some 20, some 68, some 90, some 2, some (9/2), 0, 0, "x"⟩,
       ⟨"Cold", some 5, some 41, some 60, some 8, some (179/10), 0, 0, "x"⟩] =
    some (.full
      { total_cities := 3
        data_collection_time := "t"
        temperature_stats := ⟨"Hot", "Cold", 183/10, 65⟩
        humidity_stats := ⟨"Humid", "Hot", 633/10⟩
        wind_stats := ⟨"Cold", "Humid", 97/10⟩ }) := by
  decide

/-! Helper lemmas. -/

theorem filter_orderedInsert (p : ProcessedObservation → Bool)
    (hp : ∀ x y, p x = true → p y = true → tempDescRel x y)
    (a : ProcessedObservation) (l : List ProcessedObservation) :
    (l.orderedInsert tempDescRel a).filter p = (a :: l).filter p := by
  induction l with
  | nil => rfl
  | cons b l ih =>
    by_cases hab : tempDescRel a b
    · simp [List.orderedInsert, if_pos hab]
    · rw [List.orderedInsert, if_neg hab]
      by_cases hpb : p b = true
      · have hpa : ¬ p a = true := fun hpa => hab (hp a b hpa hpb)
        simp only [List.filter_cons, hpb, if_pos, hpa, if_neg, ite_true, ite_false,
          Bool.false_eq_true]
        rw [ih]
        simp [List.filter_cons, hpa]
      · simp only [List.filter_cons, hpb, ite_false, Bool.false_eq_true, if_neg,
          not_false_iff]
        rw [ih]
        simp [List.filter_cons, hpb]

theorem filter_insertionSort (p : ProcessedObservation → Bool)
    (hp : ∀ x y, p x = true → p y = true → tempDescRel x y)
    (l : List ProcessedObservation) :
    (l.insertionSort tempDescRel).filter p = l.filter p := by
  induction l with
  | nil => rfl
  | cons a l ih =>
    rw [List.insertionSort, filter_orderedInsert p hp]
    simp [List.filter_cons, ih]

theorem listMax_mem : ∀ {l : List ℚ} {m : ℚ}, listMax l = some m → m ∈ l := by
  intro l
  induction l with
  | nil => intro m h; simp [listMax] at h
  | cons x xs ih =>
    intro m h
    rw [listMax] at h
    cases hxs : listMax xs with
    | none => rw [hxs] at h; simp at h; simp [h]
    | some mm =>
      rw [hxs] at h
      simp at h
      rcases max_choice x mm with hc | hc
      · rw [← h, hc]; exact List.mem_cons_self x xs
      · rw [← h, hc]; exact List.mem_cons_of_mem x (ih hxs)

theorem listMax_isSome_of_ne_nil {l : List ℚ} (h : l ≠ []) :
    ∃ m, listMax l = some m := by
  cases l with
  | nil => exact absurd rfl h
  | cons x xs => rw [listMax]; cases listMax xs <;> exact ⟨_, rfl⟩

theorem le_listMax : ∀ {l : List ℚ} {x m : ℚ}, x ∈ l → listMax l = some m → x ≤ m := by
  intro l
  induction l with
  | nil => intro x m hx; cases hx
  | cons y ys ih =>
    intro x m hx h
    rw [listMax] at h
    cases hys : listMax ys with
    | none =>
      rw [hys] at h; simp at h
      rcases List.mem_cons.mp hx with rfl | hx'
      · exact le_of_eq h
      · obtain ⟨m', hm'⟩ := listMax_isSome_of_ne_nil (List.ne_nil_of_mem hx')
        rw [hm'] at hys; cases hys
    | some mm =>
      rw [hys] at h; simp at h; subst h
      rcases List.mem_cons.mp hx with rfl | hx'
      · exact le_max_left x mm
      · exact le_trans (ih hx' hys) (le_max_right y mm)

theorem listMin_mem : ∀ {l : List ℚ} {m : ℚ}, listMin l = some m → m ∈ l := by
  intro l
  induction l with
  | nil => intro m h; simp [listMin] at h
  | cons x xs ih =>
    intro m h
    rw [listMin] at h
    cases hxs : listMin xs with
    | none => rw [hxs] at h; simp at h; simp [h]
    | some mm =>
      rw [hxs] at h
      simp at h
      rcases min_choice x mm with hc | hc
      · rw [← h, hc]; exact List.mem_cons_self x xs
      · rw [← h, hc]; exact List.mem_cons_of_mem x (ih hxs)

theorem listMin_isSome_of_ne_nil {l : List ℚ} (h : l ≠ []) :
    ∃ m, listMin l = some m := by
  cases l with
  | nil => exact absurd rfl h
  | cons x xs => rw [listMin]; cases listMin xs <;> exact ⟨_, rfl⟩

theorem listMin_le : ∀ {l : List ℚ} {x m : ℚ}, x ∈ l → listMin l = some m → m ≤ x := by
  intro l
  induction l with
  | nil => intro x m hx; cases hx
  | cons y ys ih =>
    intro x m hx h
    rw [listMin] at h
    cases hys : listMin ys with
    | none =>
      rw [hys] at h; simp at h
      rcases List.mem_cons.mp hx with rfl | hx'
      · exact le_of_eq h.symm
      · obtain ⟨m', hm'⟩ := listMin_isSome_of_ne_nil (List.ne_nil_of_mem hx')
        rw [hm'] at hys; cases hys
    | some mm =>
      rw [hys] at h; simp at h; subst h
      rcases List.mem_cons.mp hx with rfl | hx'
      · exact min_le_left x mm
      · exact le_trans (min_le_right y mm) (ih hx' hys)

theorem idxmaxRow_spec {key : ProcessedObservation → Option ℚ}
    {df : List ProcessedObservation} {r : ProcessedObservation}
    (h : idxmaxRow key df = some r) :
    r ∈ df ∧ ∃ m, key r = some m ∧ ∀ r' ∈ df, ∀ v, key r' = some v → v ≤ m := by
  unfold idxmaxRow at h
  cases hM : listMax (df.filterMap key) with
  | none => rw [hM] at h; cases h
  | some m =>
    rw [hM] at h
    have h' : df.find? (fun r => decide (key r = some m)) = some r := h
    have hk : key r = some m := by simpa using List.find?_some h'
    refine ⟨List.mem_of_find?_eq_some h', m, hk, ?_⟩
    intro r' hr' v hv
    exact le_listMax (List.mem_filterMap.mpr ⟨r', hr', hv⟩) hM

theorem idxminRow_spec {key : ProcessedObservation → Option ℚ}
    {df : List ProcessedObservation} {r : ProcessedObservation}
    (h : idxminRow key df = some r) :
    r ∈ df ∧ ∃ m, key r = some m ∧ ∀ r' ∈ df, ∀ v, key r' = some v → m ≤ v := by
  unfold idxminRow at h
  cases hM : listMin (df.filterMap key) with
  | none => rw [hM] at h; cases h
  | some m =>
    rw [hM] at h
    have h' : df.find? (fun r => decide (key r = some m)) = some r := h
    have hk : key r = some m := by simpa using List.find?_some h'
    refine ⟨List.mem_of_find?_eq_some h', m, hk, ?_⟩
    intro r' hr' v hv
    exact listMin_le (List.mem_filterMap.mpr ⟨r', hr', hv⟩) hM

theorem idxminRow_first_occurrence {key : ProcessedObservation → Option ℚ}
    {df : List ProcessedObservation} {r : ProcessedObservation}
    (h : idxminRow key df = some r) :
    ∃ m, key r = some m ∧
      ∃ pre post, df = pre ++ r :: post ∧ ∀ a ∈ pre, key a ≠ some m := by
  unfold idxminRow at h
  cases hM : listMin (df.filterMap key) with
  | none => rw [hM] at h; cases h
  | some m =>
    rw [hM] at h
    have h' : df.find? (fun x => decide (key x = some m)) = some r := h
    obtain ⟨hp, pre, post, hdf, hpre⟩ := List.find?_eq_some.mp h'
    have hkr : key r = some m := by simpa using hp
    refine ⟨m, hkr, pre, post, hdf, ?_⟩
    intro a ha hka
    have hb := hpre a ha
    simp [hka] at hb

theorem idxmaxRow_none_of_all_none {key : ProcessedObservation → Option ℚ}
    {df : List ProcessedObservation} (h : ∀ r ∈ df, key r = none) :
    idxmaxRow key df = none := by
  unfold idxmaxRow
  have he : df.filterMap key = [] := by
    rw [List.filterMap_eq_nil_iff]
    exact h
  rw [he]
  rfl

theorem getWeatherInsights_full_inv {now : String} {df : List ProcessedObservation}
    {i : Insights} (h : getWeatherInsights now df = some (.full i)) :
    df ≠ [] ∧
    ∃ hot cold windy calm mh lh mtc mtf mhum mw,
      idxmaxRow (fun r => r.temperature_c) df = some hot ∧
      idxminRow (fun r => r.temperature_c) df = some cold ∧
      idxmaxRow (fun r => r.humidity) df = some mh ∧
      idxminRow (fun r => r.humidity) df = some lh ∧
      idxmaxRow (fun r => r.wind_speed_mph) df = some windy ∧
      idxminRow (fun r => r.wind_speed_mph) df = some calm ∧
      i = { total_cities := df.length
            data_collection_time := now
            temperature_stats := ⟨hot.city, cold.city, round1 mtc, round1 mtf⟩
            humidity_stats := ⟨mh.city, lh.city, round1 mhum⟩
            wind_stats := ⟨windy.city, calm.city, round1 mw⟩ } := by
  unfold getWeatherInsights at h
  by_cases hdf : df.isEmpty
  · rw [if_pos hdf] at h
    simp at h
  · rw [if_neg hdf] at h
    have hne : df ≠ [] := by
      cases df with
      | nil => simp at hdf
      | cons a l => exact List.cons_ne_nil a l
    simp only [Option.bind_eq_some, Option.pure_def, Option.some.injEq, bind,
      InsightsResult.full.injEq] at h
    obtain ⟨hot, h1, cold, h2, mtc, h3, mtf, h4, mh, h5, lh, h6, mhum, h7,
      windy, h8, calm, h9, mw, h10, hi⟩ := h
    exact ⟨hne, hot, cold, windy, calm, mh, lh, mtc, mtf, mhum, mw,
      h1, h2, h5, h6, h8, h9, hi.symm⟩

theorem updateWeatherData_preserves_consistent {s : CacheState}
    {fetched : List RawObservation} {c1 c2 c3 exportOk : Bool} {now : String}
    (hs : stateConsistent s) :
    stateConsistent (updateWeatherData s fetched c1 c2 c3 exportOk now).1 := by
  by_cases he : (processWeatherData fetched).isEmpty
  · simp only [updateWeatherData, he, if_true]
    exact hs
  · cases hI : getWeatherInsights now (processWeatherData fetched) with
    | none =>
      simp only [updateWeatherData, he, Bool.false_eq_true, if_false, hI]
      exact hs
    | some res =>
      by_cases hE : exportOk = true
      · simp only [updateWeatherData, he, Bool.false_eq_true, if_false, hI, hE, if_true]
        refine ⟨(fun hnone => by cases hnone), fun df hdf => ?_⟩
        simp only [Option.some.injEq] at hdf
        exact ⟨now, res, rfl, hdf ▸ hI⟩
      · simp only [updateWeatherData, he, Bool.false_eq_true, if_false, hI, hE]
        exact hs

theorem runEvents_views_consistent {s : CacheState} (hs : stateConsistent s) :
    ∀ evs : List Ev, ∀ v ∈ runEvents s evs, viewConsistent v := by
  intro evs
  induction evs generalizing s with
  | nil => intro v hv; cases hv
  | cons ev rest ih =>
    intro v hv
    cases ev with
    | refresh f c1 c2 c3 e now =>
      rw [runEvents] at hv
      simp only [stepEv, List.nil_append] at hv
      exact ih (updateWeatherData_preserves_consistent hs) v hv
    | readData =>
      rw [runEvents] at hv
      simp only [stepEv, List.singleton_append] at hv
      rcases List.mem_cons.mp hv with rfl | hv'
      · exact ⟨hs.1, hs.2⟩
      · exact ih hs v hv'

theorem mem_sortByTempDesc {p : ProcessedObservation}
    {rows : List ProcessedObservation} : p ∈ sortByTempDesc rows ↔ p ∈ rows := by
  unfold sortByTempDesc
  rw [List.mem_append, List.mem_insertionSort]
  constructor
  · rintro (h | h) <;> exact (List.mem_filter.mp h).1
  · intro h
    by_cases hsm : (p.temperature_c).isSome
    · exact Or.inl (List.mem_filter.mpr ⟨h, by simp [hsm]⟩)
    · exact Or.inr (List.mem_filter.mpr ⟨h, by simp [hsm]⟩)

theorem sortByTempDesc_perm (rows : List ProcessedObservation) :
    List.Perm (sortByTempDesc rows) rows := by
  unfold sortByTempDesc
  exact ((List.perm_insertionSort tempDescRel _).append (List.Perm.refl _)).trans
    (List.filter_append_perm _ rows)

/-! Claims. -/

/-- C1, counterexample: `process_weather_data` does not drop the
observation of `c1df` whose `temperature_c` is absent — both rows
survive, so not every output row has `temperature_c` and
`wind_speed_ms` present, contrary to the claim. -/
theorem c1_counterexample :
    (processWeatherData c1df).length = c1df.length ∧
    ¬ (∀ p ∈ processWeatherData c1df,
        (p.temperature_c).isSome ∧ (p.wind_speed_ms).isSome) := by
  decide

/-- C1, amended: `process_weather_data` drops no observation at all.
Whenever the pandas frame arithmetic is defined (at least one
temperature and one wind speed present, so the columns are float
columns), the output is a permutation of the per-row enrichment of the
input: rows with absent `temperature_c` or `wind_speed_ms` are kept,
their absent fields and the derived `temperature_f` / `wind_speed_mph`
passed through as absent, and absent humidity is passed through
unchanged. -/
theorem c1_no_rows_dropped :
    ∀ df : List RawObservation,
    (∃ r ∈ df, (r.temperature_c).isSome) →
    (∃ r ∈ df, (r.wind_speed_ms).isSome) →
    List.Perm (processWeatherData df) (df.map computeDerived) ∧
    ∀ r : RawObservation,
      (computeDerived r).humidity = r.humidity ∧
      ((computeDerived r).temperature_c).isSome = (r.temperature_c).isSome ∧
      ((computeDerived r).temperature_f).isSome = (r.temperature_c).isSome ∧
      ((computeDerived r).wind_speed_ms).isSome = (r.wind_speed_ms).isSome ∧
      ((computeDerived r).wind_speed_mph).isSome = (r.wind_speed_ms).isSome := by
  intro df htemp _
  constructor
  · obtain ⟨r, hr, _⟩ := htemp
    have hne : df ≠ [] := List.ne_nil_of_mem hr
    have hE : df.isEmpty = false := List.isEmpty_eq_false.mpr hne
    rw [processWeatherData, hE]
    simp only [Bool.false_eq_true, if_false]
    exact sortByTempDesc_perm (df.map computeDerived)
  · intro r
    obtain ⟨city, lat, lon, tc, hum, ws, ts⟩ := r
    refine ⟨rfl, ?_, ?_, ?_, ?_⟩ <;>
      first
        | (cases tc <;> rfl)
        | (cases ws <;> rfl)

/-- Witness for C1: the amended statement evaluated on `c1df`, with the
field-passthrough facts instantiated at its second row. -/
theorem c1_witness :
    List.Perm (processWeatherData c1df) (c1df.map computeDerived) ∧
    (computeDerived (⟨"B", 0, 0, none, none, some 3, "u"⟩ : RawObservation)).humidity = none ∧
    ((computeDerived (⟨"B", 0, 0, none, none, some 3, "u"⟩ : RawObservation)).temperature_f).isSome = false := by
  have h := c1_no_rows_dropped c1df (by decide) (by decide)
  exact ⟨h.1, (h.2 _).1, by decide⟩

/-- C3: for every observation with `temperature_c` and `wind_speed_ms`
present, the Normalizer's output contains its row with
`temperature_f = round1 (c * 9/5 + 32)`, `wind_speed_mph =
round1 (w * 2.237)`, and `temperature_c`, `wind_speed_ms` rounded to
one decimal place. -/
theorem c3_unit_conversions :
    ∀ (df : List RawObservation) (r : RawObservation) (c w : ℚ),
    r ∈ df → r.temperature_c = some c → r.wind_speed_ms = some w →
    ∃ p ∈ processWeatherData df,
      p.city = r.city ∧
      p.temperature_c = some (round1 c) ∧
      p.temperature_f = some (round1 (c * 9 / 5 + 32)) ∧
      p.wind_speed_ms = some (round1 w) ∧
      p.wind_speed_mph = some (round1 (w * (2237 / 1000))) := by
  intro df r c w hr hc hw
  have hne : df ≠ [] := List.ne_nil_of_mem hr
  have hE : df.isEmpty = false := List.isEmpty_eq_false.mpr hne
  refine ⟨computeDerived r, ?_, rfl, ?_, ?_, ?_, ?_⟩
  · rw [processWeatherData, hE]
    simp only [Bool.false_eq_true, if_false]
    exact mem_sortByTempDesc.mpr (List.mem_map_of_mem computeDerived hr)
  · show (r.temperature_c.map round1) = some (round1 c)
    rw [hc]; rfl
  · show (r.temperature_c.map fun c => round1 (c * 9 / 5 + 32)) = _
    rw [hc]; rfl
  · show (r.wind_speed_ms.map round1) = some (round1 w)
    rw [hw]; rfl
  · show (r.wind_speed_ms.map fun w => round1 (w * (2237 / 1000))) = _
    rw [hw]; rfl

/-- Witness for C3: the spec's own example, 20.0 °C and 5.0 m/s give
68.0 °F and 11.2 mph after rounding. -/
theorem c3_witness :
    (∃ p ∈ processWeatherData [c3raw],
      p.city = c3raw.city ∧
      p.temperature_c = some (round1 20) ∧
      p.temperature_f = some (round1 (20 * 9 / 5 + 32)) ∧
      p.wind_speed_ms = some (round1 5) ∧
      p.wind_speed_mph = some (round1 (5 * (2237 / 1000)))) ∧
    round1 (20 * 9 / 5 + 32) = 68 ∧ round1 (5 * (2237 / 1000)) = 56/5 := by
  refine ⟨c3_unit_conversions [c3raw] c3raw 20 5 ?_ rfl rfl, by decide, by decide⟩
  exact List.mem_singleton.mpr rfl

/-- C6: a refresh in which zero cities were fetched successfully leaves
every cache global untouched and reports failure instead of publishing
an empty Snapshot. -/
theorem c6_zero_fetches_leave_cache :
    ∀ (s : CacheState) (c1 c2 c3 exportOk : Bool) (now : String),
    updateWeatherData s [] c1 c2 c3 exportOk now = (s, false) := by
  intro s c1 c2 c3 exportOk now
  rfl

/-- C7: the Aggregator on the empty collection returns the empty
insights dict and does not raise. -/
theorem c7_empty_insights :
    ∀ now : String, getWeatherInsights now [] = some InsightsResult.empty := by
  intro now
  rfl

/-- C10: the `total_cities` field of a full Insights always equals the
number of observations the Aggregator was given. -/
theorem c10_total_cities :
    ∀ (now : String) (df : List ProcessedObservation) (i : Insights),
    getWeatherInsights now df = some (.full i) → i.total_cities = df.length := by
  intro now df i h
  obtain ⟨-, hot, cold, windy, calm, mh, lh, mtc, mtf, mhum, mw,
    -, -, -, -, -, -, hi⟩ := getWeatherInsights_full_inv h
  rw [hi]

/-- Witness for C10 at a one-row frame. -/
theorem c10_witness : c10insights.total_cities = c10df.length :=
  c10_total_cities "t" c10df c10insights (by decide)

theorem getWeatherInsights_empty_inv {now : String} {df : List ProcessedObservation}
    (h : getWeatherInsights now df = some .empty) : df = [] := by
  by_cases hdf : df.isEmpty
  · exact List.isEmpty_iff.mp hdf
  · exfalso
    rw [getWeatherInsights, if_neg hdf] at h
    simp only [bind, Option.bind_eq_some, Option.pure_def, Option.some.injEq] at h
    obtain ⟨a1, -, a2, -, a3, -, a4, -, a5, -, a6, -, a7, -, a8, -, a9, -, a10, -, hlast⟩ := h
    exact InsightsResult.noConfusion hlast

/-- C4, counterexample: on a non-empty frame in which every observation
lacks humidity, `get_weather_insights` raises (modelled `none`) instead
of returning an Insights with null humidity fields. -/
theorem c4_counterexample :
    c4df ≠ [] ∧ c4df.all (fun r => r.humidity == none) = true ∧
    getWeatherInsights "t" c4df = none := by
  decide

/-- C4, amended: `most_humid_city` / `least_humid_city` are the argmax
and argmin over the observations whose humidity is present; but when
every observation lacks humidity the Aggregator raises
(`df.loc[nan, 'city']` after an all-NaN `idxmax`) rather than
returning an Insights with those fields null. -/
theorem c4_humidity_extrema :
    (∀ (now : String) (df : List ProcessedObservation) (i : Insights),
      getWeatherInsights now df = some (.full i) →
      (∃ r ∈ df, ∃ hv, r.humidity = some hv ∧
        i.humidity_stats.most_humid_city = r.city ∧
        ∀ r' ∈ df, ∀ h', r'.humidity = some h' → h' ≤ hv) ∧
      (∃ r ∈ df, ∃ hv, r.humidity = some hv ∧
        i.humidity_stats.least_humid_city = r.city ∧
        ∀ r' ∈ df, ∀ h', r'.humidity = some h' → hv ≤ h')) ∧
    (∀ (now : String) (df : List ProcessedObservation),
      df ≠ [] → (∀ r ∈ df, r.humidity = none) →
      getWeatherInsights now df = none) := by
  constructor
  · intro now df i hins
    obtain ⟨-, hot, cold, windy, calm, mh, lh, mtc, mtf, mhum, mw,
      h1, h2, hmh, hlh, hwn, hcm, hi⟩ := getWeatherInsights_full_inv hins
    subst hi
    obtain ⟨hmem1, m1, hkey1, hub1⟩ := idxmaxRow_spec hmh
    obtain ⟨hmem2, m2, hkey2, hlb2⟩ := idxminRow_spec hlh
    exact ⟨⟨mh, hmem1, m1, hkey1, rfl, hub1⟩, ⟨lh, hmem2, m2, hkey2, rfl, hlb2⟩⟩
  · intro now df hne hnull
    cases hres : getWeatherInsights now df with
    | none => rfl
    | some r =>
      exfalso
      cases r with
      | empty => exact hne (getWeatherInsights_empty_inv hres)
      | full i =>
        obtain ⟨-, hot, cold, windy, calm, mh, lh, mtc, mtf, mhum, mw,
          h1, h2, hmh, hlh, hwn, hcm, hi⟩ := getWeatherInsights_full_inv hres
        rw [idxmaxRow_none_of_all_none hnull] at hmh
        cases hmh

/-- Witness for C4: the argmax/argmin part on the spec's example frame,
and the raising part on the all-absent-humidity frame. -/
theorem c4_witness :
    ((∃ r ∈ c4okdf, ∃ hv, r.humidity = some hv ∧
        c4insights.humidity_stats.most_humid_city = r.city ∧
        ∀ r' ∈ c4okdf, ∀ h', r'.humidity = some h' → h' ≤ hv) ∧
      (∃ r ∈ c4okdf, ∃ hv, r.humidity = some hv ∧
        c4insights.humidity_stats.least_humid_city = r.city ∧
        ∀ r' ∈ c4okdf, ∀ h', r'.humidity = some h' → hv ≤ h')) ∧
    getWeatherInsights "t" c4df = none :=
  ⟨c4_humidity_extrema.1 "t" c4okdf c4insights (by decide),
   c4_humidity_extrema.2 "t" c4df (by decide) (by decide)⟩

/-- C5, counterexample: with observations and insights computed
successfully but the CSV exporter failing, `update_weather_data` leaves
the cache untouched (nothing is published), contrary to the claim that
an exporter failure still publishes the Snapshot. -/
theorem c5_counterexample :
    (getWeatherInsights "t" (processWeatherData c5raw)).isSome = true ∧
    updateWeatherData initialCache c5raw true true true false "t" =
      (initialCache, false) ∧
    initialCache.cached_weather_data = none := by
  decide

/-- C5, amended: a chart-renderer failure does not prevent publishing —
the Snapshot is still published with the failed chart (and the charts
scheduled after it, since the shared `try` aborts the rest) omitted
from the mapping; but a CSV-exporter failure does prevent publication:
`to_csv` runs before the cache assignment inside the same `try`, so the
previous cache state is kept and the refresh reports failure. -/
theorem c5_chart_vs_export :
    ∀ (s : CacheState) (fetched : List RawObservation) (now : String)
      (res : InsightsResult) (c1 c2 c3 : Bool),
    processWeatherData fetched ≠ [] →
    getWeatherInsights now (processWeatherData fetched) = some res →
    updateWeatherData s fetched c1 c2 c3 true now =
      ({ cached_weather_data := some (processWeatherData fetched)
         cached_insights := some res
         cached_charts := some (generateAllVisualizations c1 c2 c3)
         last_update_time := some now }, true) ∧
    ((generateAllVisualizations c1 c2 c3).lookup "temperature_comparison").isSome = c1 ∧
    ((generateAllVisualizations c1 c2 c3).lookup "humidity_wind_analysis").isSome = (c1 && c2) ∧
    ((generateAllVisualizations c1 c2 c3).lookup "comprehensive_dashboard").isSome = (c1 && c2 && c3) ∧
    updateWeatherData s fetched c1 c2 c3 false now = (s, false) := by
  intro s fetched now res c1 c2 c3 hne hins
  have hEf : (processWeatherData fetched).isEmpty = false :=
    List.isEmpty_eq_false.mpr hne
  refine ⟨?_, ?_, ?_, ?_, ?_⟩
  · simp only [updateWeatherData, hEf, Bool.false_eq_true, if_false, hins, if_true]
  · cases c1 <;> cases c2 <;> cases c3 <;> rfl
  · cases c1 <;> cases c2 <;> cases c3 <;> rfl
  · cases c1 <;> cases c2 <;> cases c3 <;> rfl
  · simp only [updateWeatherData, hEf, Bool.false_eq_true, if_false, hins]

/-- Witness for C5: a run with the second chart failing still publishes
(with that chart and the dashboard omitted), and the same run with the
exporter failing publishes nothing. -/
theorem c5_witness :
    updateWeatherData initialCache c5raw true false true true "t" =
      ({ cached_weather_data := some (processWeatherData c5raw)
         cached_insights := some c5res
         cached_charts := some (generateAllVisualizations true false true)
         last_update_time := some "t" }, true) ∧
    ((generateAllVisualizations true false true).lookup "temperature_comparison").isSome = true ∧
    ((generateAllVisualizations true false true).lookup "humidity_wind_analysis").isSome = (true && false) ∧
    ((generateAllVisualizations true false true).lookup "comprehensive_dashboard").isSome = (true && false && true) ∧
    updateWeatherData initialCache c5raw true false true false "t" = (initialCache, false) :=
  c5_chart_vs_export initialCache c5raw "t" c5res true false true (by decide) (by decide)

theorem idxmaxRow_head_of_sorted {df : List ProcessedObservation} (hne : df ≠ [])
    (hall : ∀ r ∈ df, (r.temperature_c).isSome)
    (hsorted : List.Sorted tempDescRel df) :
    idxmaxRow (fun r => r.temperature_c) df = some (df.head hne) := by
  cases df with
  | nil => exact absurd rfl hne
  | cons r0 rest =>
    obtain ⟨t0, ht0⟩ := Option.isSome_iff_exists.mp (hall r0 (List.mem_cons_self r0 rest))
    have hval : t0 ∈ (r0 :: rest).filterMap (fun r => r.temperature_c) :=
      List.mem_filterMap.mpr ⟨r0, List.mem_cons_self _ _, ht0⟩
    obtain ⟨m, hM⟩ := listMax_isSome_of_ne_nil (List.ne_nil_of_mem hval)
    have hle : t0 ≤ m := le_listMax hval hM
    have hge : m ≤ t0 := by
      obtain ⟨rm, hrm, hkm⟩ := List.mem_filterMap.mp (listMax_mem hM)
      have h1 : tempKey rm = m := by rw [tempKey, hkm]; rfl
      have h2 : tempKey r0 = t0 := by rw [tempKey, ht0]; rfl
      rcases List.mem_cons.mp hrm with rfl | hrm'
      · exact le_of_eq (Option.some.inj (hkm.symm.trans ht0))
      · have hrel := List.rel_of_sorted_cons hsorted rm hrm'
        rw [tempDescRel, h1, h2] at hrel
        exact hrel
    have hmt : m = t0 := le_antisymm hge hle
    subst hmt
    unfold idxmaxRow
    rw [hM]
    show ((r0 :: rest).find? fun r => decide (r.temperature_c = some m)) = some _
    rw [List.find?_cons_of_pos _ (by simp [ht0])]
    rfl

theorem idxminRow_first_min_of_strict {df : List ProcessedObservation} (hne : df ≠ [])
    (hall : ∀ r ∈ df, (r.temperature_c).isSome)
    (hstrict : ∀ r' ∈ df.dropLast, tempKey (df.getLast hne) < tempKey r') :
    idxminRow (fun r => r.temperature_c) df = some (df.getLast hne) := by
  obtain ⟨tL, htL⟩ := Option.isSome_iff_exists.mp (hall _ (List.getLast_mem hne))
  have htLkey : tempKey (df.getLast hne) = tL := by rw [tempKey, htL]; rfl
  have hval : tL ∈ df.filterMap (fun r => r.temperature_c) :=
    List.mem_filterMap.mpr ⟨df.getLast hne, List.getLast_mem hne, htL⟩
  obtain ⟨m, hM⟩ := listMin_isSome_of_ne_nil (List.ne_nil_of_mem hval)
  have hge : m ≤ tL := listMin_le hval hM
  have hle : tL ≤ m := by
    obtain ⟨rm, hrm, hkm⟩ := List.mem_filterMap.mp (listMin_mem hM)
    have h1 : tempKey rm = m := by rw [tempKey, hkm]; rfl
    rw [← List.dropLast_append_getLast hne] at hrm
    rcases List.mem_append.mp hrm with hd | hl
    · have hlt := hstrict rm hd
      rw [htLkey, h1] at hlt
      exact le_of_lt hlt
    · rcases List.mem_singleton.mp hl with rfl
      rw [htLkey] at h1
      exact le_of_eq h1
  have hmt : m = tL := le_antisymm hge hle
  subst hmt
  unfold idxminRow
  rw [hM]
  show (df.find? fun r => decide (r.temperature_c = some m)) = some (df.getLast hne)
  conv_lhs => rw [← List.dropLast_append_getLast hne]
  rw [List.find?_append]
  have hnone : (df.dropLast.find? fun r => decide (r.temperature_c = some m)) = none := by
    rw [List.find?_eq_none]
    intro x hx hpx
    have hxk : x.temperature_c = some m := by simpa using hpx
    have hxkey : tempKey x = m := by rw [tempKey, hxk]; rfl
    have hlt := hstrict x hx
    rw [htLkey, ← hxkey] at hlt
    exact lt_irrefl _ hlt
  rw [hnone, Option.none_or, List.find?_cons_of_pos _ (by simp [htL])]

/-- C8, counterexample: on the temperature-sorted frame `c8df` whose
minimum temperature is tied, `coldest_city` is the city of the first
row attaining the minimum ("B"), not the city of the last element
("C") as the claim states. -/
theorem c8_counterexample :
    getWeatherInsights "t" c8df = some (.full c8insights) ∧
    c8insights.temperature_stats.coldest_city = "B" ∧
    (c8df.getLast?).map (fun r => r.city) = some "C" ∧
    ("B" : String) ≠ "C" := by
  decide

/-- C8, amended: on a non-empty temperature-sorted frame,
`hottest_city` is the city of the first element, and `coldest_city` is
the argmin over `temperature_c` with ties resolved by first occurrence
in the sequence: the frame splits as `pre ++ r :: post` where
`coldest_city` is `r`'s city, `r` attains the minimum temperature, and
every row before `r` is strictly warmer.  That first minimizer is the
last element exactly when the minimum temperature is unique (strictly
below all earlier rows). -/
theorem c8_temperature_extrema :
    ∀ (now : String) (df : List ProcessedObservation) (i : Insights)
      (hne : df ≠ []),
    (∀ r ∈ df, (r.temperature_c).isSome) →
    List.Sorted tempDescRel df →
    getWeatherInsights now df = some (.full i) →
    i.temperature_stats.hottest_city = (df.head hne).city ∧
    (∃ pre r post, df = pre ++ r :: post ∧
      i.temperature_stats.coldest_city = r.city ∧
      (∀ r' ∈ df, tempKey r ≤ tempKey r') ∧
      (∀ r' ∈ pre, tempKey r < tempKey r')) ∧
    ((∀ r' ∈ df.dropLast, tempKey (df.getLast hne) < tempKey r') →
      i.temperature_stats.coldest_city = (df.getLast hne).city) := by
  intro now df i hne hall hsorted hins
  obtain ⟨-, hot, cold, windy, calm, mh, lh, mtc, mtf, mhum, mw,
    h1, h2, hmh, hlh, hwn, hcm, hi⟩ := getWeatherInsights_full_inv hins
  subst hi
  refine ⟨?_, ?_, ?_⟩
  · rw [idxmaxRow_head_of_sorted hne hall hsorted] at h1
    rw [← Option.some.inj h1]
  · obtain ⟨hmem, mc, hkey, hlb⟩ := idxminRow_spec h2
    obtain ⟨mc', hkey', pre, post, hdf, hpre⟩ := idxminRow_first_occurrence h2
    have hmc : mc' = mc := Option.some.inj (hkey'.symm.trans hkey)
    subst hmc
    have hcold : tempKey cold = mc' := by rw [tempKey, hkey]; rfl
    refine ⟨pre, cold, post, hdf, rfl, ?_, ?_⟩
    · intro r' hr'
      obtain ⟨v', hv'⟩ := Option.isSome_iff_exists.mp (hall r' hr')
      have hr : tempKey r' = v' := by rw [tempKey, hv']; rfl
      rw [hcold, hr]
      exact hlb r' hr' v' hv'
    · intro r' hr'
      have hr'df : r' ∈ df := by
        rw [hdf]
        exact List.mem_append.mpr (Or.inl hr')
      obtain ⟨v', hv'⟩ := Option.isSome_iff_exists.mp (hall r' hr'df)
      have hr : tempKey r' = v' := by rw [tempKey, hv']; rfl
      have hne' : v' ≠ mc' := fun he => hpre r' hr' (by rw [hv', he])
      rw [hcold, hr]
      exact lt_of_le_of_ne (hlb r' hr'df v' hv') (Ne.symm hne')
  · intro hstrict
    rw [idxminRow_first_min_of_strict hne hall hstrict] at h2
    rw [← Option.some.inj h2]

/-- Witness for C8: on the tied frame `c8df` the first-occurrence
split applies and coldest is "B" (the first row attaining the tied
minimum), while on `c8wdf` — whose minimum is unique — coldest is the
last row's city "C". -/
theorem c8_witness :
    c8insights.temperature_stats.hottest_city = "A" ∧
    (∃ pre r post, c8df = pre ++ r :: post ∧
      c8insights.temperature_stats.coldest_city = r.city ∧
      (∀ r' ∈ c8df, tempKey r ≤ tempKey r') ∧
      (∀ r' ∈ pre, tempKey r < tempKey r')) ∧
    c8insights.temperature_stats.coldest_city = "B" ∧
    c8winsights.temperature_stats.coldest_city = "C" := by
  have h1 := c8_temperature_extrema "t" c8df c8insights (by decide)
    (by decide) (by decide) (by decide)
  have h2 := c8_temperature_extrema "t" c8wdf c8winsights (by decide)
    (by decide) (by decide) (by decide)
  exact ⟨h1.1, h1.2.1, by decide, h2.2.2 (by decide)⟩

/-- C9: every view a reader can obtain from the cache, in any
interleaving of refreshes and reads starting at process start, pairs
cached observations with exactly the insights derived from them — the
four cache globals are replaced as one atomic unit (the body of
`update_weather_data` contains no `await`, so asyncio cannot switch to
a reader in the middle of the assignments). -/
theorem c9_reader_never_mixed :
    ∀ (evs : List Ev) (v : ReadView),
    v ∈ runEvents initialCache evs → viewConsistent v := by
  intro evs v hv
  exact runEvents_views_consistent
    ⟨fun _ => rfl, fun df hdf => by cases hdf⟩ evs v hv

/-- Witness for C9: the view read after the `c9raw` refresh is
consistent. -/
theorem c9_witness : viewConsistent c9view :=
  c9_reader_never_mixed c9evs c9view (by decide)

end Weather
